import Mathlib

/-!
Shallow embedding of `src/fastapi_app/main.py`: a FastAPI relay that keeps a
bounded in-memory conversation history per participant+bot key, calls an
external completion service, and mirrors every message to a spreadsheet log
with a local-file fallback.

Python values appearing in request bodies are modelled by `JVal`; Python
exceptions by `PyError` threaded through `Except`.  External effects (the
remote sheet, the fallback file, the completion service, the clock, the
UUID entropy) are modelled as explicit parameters.
-/

namespace ChatApp

/-- A JSON/Python value as it appears in a parsed request body. -/
inductive JVal where
  | str (s : String)
  | int (n : Int)
  | bool (b : Bool)
  | null
deriving DecidableEq, Repr

/-- Python exceptions relevant to this program. -/
inductive PyError where
  | attributeError
  | runtimeError
  | apiError
  | osError
deriving DecidableEq, Repr

/-- Python truthiness of a value. -/
def pyTruthy : JVal → Bool
  | .str s => s ≠ ""
  | .int n => n ≠ 0
  | .bool b => b
  | .null => false

/-- Python `str(...)` of a value. -/
def pyStr : JVal → String
  | .str s => s
  | .int n => toString n
  | .bool b => if b then "True" else "False"
  | .null => "None"

/-- Python `a or b`: `a` when truthy, else `b`. -/
def pyOr (a b : JVal) : JVal := if pyTruthy a then a else b

/-- `d.get(k)` on an optional field: absent keys give Python `None`. -/
def pyGet (o : Option JVal) : JVal := o.getD .null

/-- `str.strip()`: removes leading and trailing whitespace characters. -/
def pyStripStr (s : String) : String :=
  ⟨((s.data.dropWhile Char.isWhitespace).reverse.dropWhile
      Char.isWhitespace).reverse⟩

/-- `x.strip()`: defined on strings, raises `AttributeError` otherwise. -/
def pyStrip : JVal → Except PyError String
  | .str s => .ok (pyStripStr s)
  | _ => .error .attributeError

/-- An ASCII apostrophe, used inside the literal strings of the source. -/
def apos : String := String.singleton (Char.ofNat 39)

/-- `BOT_ID_MAP`: bot numbers "1".."8" to bot IDs LongBot1..LongBot8. -/
def BOT_ID_MAP : List (String × String) :=
  [("1", "LongBot1"), ("2", "LongBot2"), ("3", "LongBot3"), ("4", "LongBot4"),
   ("5", "LongBot5"), ("6", "LongBot6"), ("7", "LongBot7"), ("8", "LongBot8")]

/-- Python `d.get(k, dflt)` over the association-list dictionary. -/
def dictGet (d : List (String × String)) (k dflt : String) : String :=
  (d.lookup k).getD dflt

/-- `generate_id()`: `str(uuid.uuid4().int)[:16]`, over the 128-bit entropy. -/
def generate_id (uuidInt : Nat) : String := (toString uuidInt).take 16

/-- One turn of a conversation: `{"role": ..., "content": ...}`. -/
structure Turn where
  role : String
  content : String
deriving DecidableEq, Repr

/-- The process-wide `conversations` map, keyed by `prolific_pid:bot_id`.
A key never written holds the empty history (created lazily in the source). -/
def ConvMap := String → List Turn

/-- The empty `conversations = {}` store. -/
def emptyConvs : ConvMap := fun _ => []

/-- `conversations[conv_key] = v`. -/
def updateConv (m : ConvMap) (k : String) (v : List Turn) : ConvMap :=
  fun k2 => if k2 = k then v else m k2

/-- The user-turn append of the chat handler: append, then
`conversations[conv_key] = conversations[conv_key][-10:]` when the length
exceeds 10 (Python slice `[-10:]` keeps the last ten elements). -/
def appendUserTurn (conv : List Turn) (t : Turn) : List Turn :=
  let h := conv ++ [t]
  if h.length > 10 then h.drop (h.length - 10) else h

/-- The assistant-turn append of the chat handler: a plain append, with no
truncation after it. -/
def appendAssistantTurn (conv : List Turn) (t : Turn) : List Turn := conv ++ [t]

/-! ## External Log Sink (`log_to_sheets`) -/

/-- Availability of the log sink's environment: whether the sheet handle was
initialized at startup, whether the remote append succeeds, and whether the
local fallback file append succeeds. -/
structure LogEnv where
  sheetInit : Bool
  remoteOk : Bool
  fileOk : Bool
deriving DecidableEq, Repr

/-- One appended spreadsheet row:
timestamp | prolific_pid | bot_id | arm | role | content. -/
structure LogRow where
  timestamp : String
  pid : String
  bot : String
  arm : String
  role : String
  content : String
deriving DecidableEq, Repr

/-- Observable effects of the sink: rows appended remotely and lines appended
to the local fallback file `sheet_log_backup.txt`. -/
structure LogEffects where
  remoteRows : List LogRow
  fileLines : List String
deriving DecidableEq, Repr

/-- `sheet.append_row(row)`: appends remotely or raises. -/
def sheetAppendRow (env : LogEnv) (row : LogRow) (eff : LogEffects) :
    Except PyError LogEffects :=
  if env.remoteOk then .ok { eff with remoteRows := eff.remoteRows ++ [row] }
  else .error .apiError

/-- `open("sheet_log_backup.txt", "a")` + `f.write(line)`: appends one line
to the fallback file (created if absent) or raises. -/
def fileAppendLine (env : LogEnv) (line : String) (eff : LogEffects) :
    Except PyError LogEffects :=
  if env.fileOk then .ok { eff with fileLines := eff.fileLines ++ [line] }
  else .error .osError

/-- The comma-joined rendering the fallback writes:
`f"{timestamp}, {pid_str}, {bot_str}, {arm_str}, {role_str}, {content_str}"`. -/
def commaJoinRow (r : LogRow) : String :=
  r.timestamp ++ ", " ++ r.pid ++ ", " ++ r.bot ++ ", " ++ r.arm ++ ", " ++
    r.role ++ ", " ++ r.content

/-- `log_to_sheets(prolific_pid, bot_id, role, content)`.  The timestamp
`now_iso()` is passed in as `ts`.  Mirrors the source: skip when the sheet is
uninitialized; try the remote append; on failure try the single file
fallback; on failure of that too, return normally. -/
def log_to_sheets (env : LogEnv) (ts : String)
    (prolific_pid bot_id role content : String) (eff : LogEffects) :
    Except PyError LogEffects :=
  if env.sheetInit = false then .ok eff
  else
    let pid_str := if prolific_pid ≠ "" then prolific_pid else ""
    let bot_str := if bot_id ≠ "" then bot_id else ""
    let row : LogRow := ⟨ts, pid_str, bot_str, "crt-random", role, content⟩
    match sheetAppendRow env row eff with
    | .ok e1 => .ok e1
    | .error _ =>
      match fileAppendLine env (commaJoinRow row) eff with
      | .ok e2 => .ok e2
      | .error _ => .ok eff

/-! ## Request handlers -/

/-- One handler-level call to `log_to_sheets` with its four arguments. -/
structure LogCall where
  pid : String
  bot : String
  role : String
  content : String
deriving DecidableEq, Repr

/-- Response of `POST /api/session`, plus the log calls the handler makes. -/
structure SessionResult where
  status : Nat
  session_id : String
  prolific_pid : String
  bot_id : String
  logCalls : List LogCall
deriving DecidableEq, Repr

/-- `new_session`: query params `pid` and `bot` (absent params give the
`dict.get` defaults "NO_PID" and ""), with the 128-bit UUID entropy passed
in as `uuidInt`. -/
def new_session (pidQ botQ : Option String) (uuidInt : Nat) : SessionResult :=
  let prolific_pid := pidQ.getD "NO_PID"
  let bot_param := botQ.getD ""
  let bot_id := if bot_param ≠ "" then dictGet BOT_ID_MAP bot_param bot_param
                else "UnknownBot"
  let session_id := generate_id uuidInt
  { status := 200
    session_id := session_id
    prolific_pid := prolific_pid
    bot_id := bot_id
    logCalls := [⟨prolific_pid, bot_id, "session", "session_created:" ++ session_id⟩] }

/-- A parsed `POST /api/chat` JSON body (a JSON object; each field may be
absent or hold any JSON value). -/
structure Payload where
  prolific_pid : Option JVal
  test_pid : Option JVal
  pid : Option JVal
  bot : Option JVal
  message : Option JVal
deriving DecidableEq, Repr

/-- The PID alias chain of the chat handler:
`payload.get("prolific_pid") or payload.get("test_pid") or payload.get("pid")
or "NO_PID"`. -/
def resolve_pid (p : Payload) : JVal :=
  pyOr (pyGet p.prolific_pid)
    (pyOr (pyGet p.test_pid) (pyOr (pyGet p.pid) (.str "NO_PID")))

/-- Environment of one chat request: whether the OpenAI client was
initialized, what the completion call returns (`none` models a raised
exception from the remote call), and `int(time.time())`. -/
structure ChatEnv where
  clientInit : Bool
  completionContent : Option String
  now : Nat
deriving DecidableEq, Repr

/-- The fixed apology string substituted when the completion call fails. -/
def apologyReply : String :=
  "Sorry, I couldn" ++ apos ++ "t generate a response right now."

/-- Error body for a missing/empty `message`. -/
def missingMessageError : String :=
  "Missing required field " ++ apos ++ "message" ++ apos

/-- Error body for a missing/empty `bot`. -/
def missingBotError : String :=
  "Missing required field " ++ apos ++ "bot" ++ apos

/-- The `try` block around the OpenAI call: raises when the client is
uninitialized or the remote call fails; otherwise returns the trimmed reply
and appends the assistant turn to the history. -/
def completionAttempt (env : ChatEnv) (hist : List Turn) :
    Except PyError (String × List Turn) :=
  if env.clientInit = false then .error .runtimeError
  else
    match env.completionContent with
    | none => .error .apiError
    | some c =>
      let reply := pyStripStr c
      .ok (reply, appendAssistantTurn hist ⟨"assistant", reply⟩)

/-- `bot_id = BOT_ID_MAP.get(str(bot_param), str(bot_param))` with
`bot_param = payload.get("bot", "")`. -/
def chat_bot_id (p : Payload) : String :=
  dictGet BOT_ID_MAP (pyStr (p.bot.getD (.str ""))) (pyStr (p.bot.getD (.str "")))

/-- `conv_key = f"{prolific_pid}:{bot_id}"`. -/
def chat_conv_key (p : Payload) : String :=
  pyStr (resolve_pid p) ++ ":" ++ chat_bot_id p

/-- The `try/except` around the completion call in the chat handler: the
reply and the updated history on success, the fixed apology and the
unchanged history on failure. -/
def completionWithFallback (env : ChatEnv) (hist1 : List Turn) :
    String × List Turn :=
  match completionAttempt env hist1 with
  | .ok pair => pair
  | .error _ => (apologyReply, hist1)

/-- Body of a chat response: an error object or `{reply, session_id}`. -/
inductive ChatBody where
  | err (msg : String)
  | ok (reply : String) (session_id : String)
deriving DecidableEq, Repr

/-- Result of one chat request: HTTP status, body, the updated
`conversations` map, and the log calls made (in order). -/
structure ChatResult where
  status : Nat
  body : ChatBody
  convs : ConvMap
  logCalls : List LogCall

/-- `chat`: the `POST /api/chat` handler, over an already-parsed JSON body.
A `.error` result is an exception escaping the handler. -/
def chat (env : ChatEnv) (payload : Payload) (convs : ConvMap) :
    Except PyError ChatResult := do
  let prolific_pid := resolve_pid payload
  let bot_param := payload.bot.getD (.str "")
  let user_msg ← pyStrip (payload.message.getD (.str ""))
  if user_msg = "" then
    return ⟨400, .err missingMessageError, convs, []⟩
  if pyTruthy bot_param = false then
    return ⟨400, .err missingBotError, convs, []⟩
  let bot_id := chat_bot_id payload
  let conv_key := chat_conv_key payload
  let hist1 := appendUserTurn (convs conv_key) ⟨"user", user_msg⟩
  let userLog : LogCall := ⟨pyStr prolific_pid, bot_id, "user", user_msg⟩
  let pr := completionWithFallback env hist1
  let reply := pr.1
  let hist2 := pr.2
  let assistantLog : LogCall := ⟨pyStr prolific_pid, bot_id, "assistant", reply⟩
  let session_like := pyStr prolific_pid ++ ":" ++ bot_id ++ ":" ++ toString env.now
  return ⟨200, .ok reply session_like, updateConv convs conv_key hist2,
          [userLog, assistantLog]⟩

/-- Result of `GET /api/test-log`: the `status` field of the JSON body and
the resulting sink effects. -/
structure TestLogResult where
  status : String
  effects : LogEffects
deriving DecidableEq, Repr

/-- `test_log`: emits two fixed log rows under debug identifiers; reports
"success", or "error" if `log_to_sheets` raised. -/
def test_log (env : LogEnv) (ts : String) (eff : LogEffects) : TestLogResult :=
  match (log_to_sheets env ts "DEBUG_PID" "LongBot1" "user" "Test user message" eff).bind
      (fun e1 => log_to_sheets env ts "DEBUG_PID" "LongBot1" "assistant" "Test assistant reply" e1) with
  | .ok e2 => ⟨"success", e2⟩
  | .error _ => ⟨"error", eff⟩

/-! ## Append discipline of the chat handler

Each chat turn appends a user turn through the truncating
`appendUserTurn`, followed — only when the completion call succeeds — by
an assistant turn through the non-truncating `appendAssistantTurn`. -/

/-- One chat turn's appends: user turn alone (completion failed) or user
turn followed by an assistant turn (completion succeeded). -/
inductive TurnAppends where
  | uonly (u : Turn)
  | upair (u a : Turn)
deriving DecidableEq, Repr

/-- Run a sequence of chat turns' appends over a conversation, exactly as
the chat handler performs them. -/
def runAppends : List Turn → List TurnAppends → List Turn
  | conv, [] => conv
  | conv, .uonly u :: rest => runAppends (appendUserTurn conv u) rest
  | conv, .upair u a :: rest =>
      runAppends (appendAssistantTurn (appendUserTurn conv u) a) rest

/-- All turns appended over a sequence of chat turns, in order. -/
def turnsOf : List TurnAppends → List Turn
  | [] => []
  | .uonly u :: rest => u :: turnsOf rest
  | .upair u a :: rest => u :: a :: turnsOf rest

/-- The number N of individual turn-appends in a sequence of chat turns. -/
def appendCount : List TurnAppends → Nat
  | [] => 0
  | .uonly _ :: rest => 1 + appendCount rest
  | .upair _ _ :: rest => 2 + appendCount rest

/-- Whether the most recent individual append was an assistant turn. -/
def endsWithAssistant (steps : List TurnAppends) : Bool :=
  match steps.getLast? with
  | some (.upair _ _) => true
  | _ => false

/-- A fixed environment where the completion service always answers "ok". -/
def repeatEnv : ChatEnv := ⟨true, some "ok", 1000⟩

/-- A fixed chat request body: pid "P1", bot "1", message "Hi". -/
def repeatPayload : Payload :=
  ⟨none, none, some (.str "P1"), some (.str "1"), some (.str "Hi")⟩

/-- The `conversations` store after n identical chat requests
(`repeatPayload` under `repeatEnv`). -/
def chatIterConvs : Nat → ConvMap
  | 0 => emptyConvs
  | n + 1 =>
    match chat repeatEnv repeatPayload (chatIterConvs n) with
    | .ok r => r.convs
    | .error _ => chatIterConvs n

/-! ## Spec-side definitions for refinement statements -/

/-- Spec-side reading of one alias field: its value when present and
non-empty, else nothing. -/
def nonEmptyField (o : Option String) : Option String :=
  o.bind (fun s => if s = "" then none else some s)

/-- Spec-side alias rule: the first non-empty of `prolific_pid`,
`test_pid`, `pid` (in that order), else the sentinel "NO_PID". -/
def firstNonEmptyPid (a b c : Option String) : String :=
  ((nonEmptyField a).orElse (fun _ =>
    (nonEmptyField b).orElse (fun _ =>
      (nonEmptyField c).orElse (fun _ => none)))).getD "NO_PID"

/-! ## Helper lemmas -/

/-- `log_to_sheets` returns `.ok` on every environment: each failing
sub-operation is caught. -/
theorem log_to_sheets_total (env : LogEnv) (ts p b r c : String)
    (eff : LogEffects) : ∃ e2, log_to_sheets env ts p b r c eff = .ok e2 := by
  rcases env with ⟨si, ro, fo⟩
  cases si <;> cases ro <;> cases fo <;>
    simp [log_to_sheets, sheetAppendRow, fileAppendLine]

/-- `str(x) if x else ""` is the identity on strings. -/
theorem strOrEmpty_eq (p : String) : (if p = "" then "" else p) = p := by
  by_cases h : p = "" <;> simp [h]

/-- One step of the Python `or` chain over an optional string field,
related to the spec-side first-non-empty rule. -/
theorem pyOr_step (o : Option String) (S : Option String) :
    pyOr (pyGet (o.map .str)) (.str (S.getD "NO_PID")) =
      .str (((nonEmptyField o).orElse (fun _ => S)).getD "NO_PID") := by
  cases o with
  | none => rfl
  | some s =>
    by_cases h : s = "" <;>
      simp [pyOr, pyGet, pyTruthy, nonEmptyField, Option.orElse, h]

/-- When the client is uninitialized or the remote completion call fails,
the fallback substitutes the fixed apology and leaves the history alone. -/
theorem completionWithFallback_unavailable (env : ChatEnv)
    (h : env.clientInit = false ∨ env.completionContent = none)
    (hist : List Turn) :
    completionWithFallback env hist = (apologyReply, hist) := by
  rcases h with h | h
  · simp [completionWithFallback, completionAttempt, h]
  · cases hcl : env.clientInit <;>
      simp [completionWithFallback, completionAttempt, hcl, h]

/-- When the client is initialized and the remote call returns content,
the fallback is not taken: the trimmed reply is returned and the assistant
turn is appended. -/
theorem completionWithFallback_success (env : ChatEnv) (c : String)
    (h1 : env.clientInit = true) (h2 : env.completionContent = some c)
    (hist : List Turn) :
    completionWithFallback env hist =
      (pyStripStr c, appendAssistantTurn hist ⟨"assistant", pyStripStr c⟩) := by
  simp [completionWithFallback, completionAttempt, h1, h2]

/-- Unfolding of the chat handler on a body whose `message` is a string:
validation, then the completion attempt with fallback, then the response. -/
theorem chat_run (env : ChatEnv) (f1 f2 f3 botv : Option JVal) (m : String)
    (convs : ConvMap) :
    chat env ⟨f1, f2, f3, botv, some (.str m)⟩ convs =
      (let P : Payload := ⟨f1, f2, f3, botv, some (.str m)⟩
       let hist1 := appendUserTurn (convs (chat_conv_key P)) ⟨"user", pyStripStr m⟩
       let pr := completionWithFallback env hist1
       if pyStripStr m = "" then
         .ok ⟨400, .err missingMessageError, convs, []⟩
       else if pyTruthy (botv.getD (.str "")) = false then
         .ok ⟨400, .err missingBotError, convs, []⟩
       else
         .ok ⟨200,
           .ok pr.1 (pyStr (resolve_pid P) ++ ":" ++ chat_bot_id P ++ ":" ++
             toString env.now),
           updateConv convs (chat_conv_key P) pr.2,
           [⟨pyStr (resolve_pid P), chat_bot_id P, "user", pyStripStr m⟩,
            ⟨pyStr (resolve_pid P), chat_bot_id P, "assistant", pr.1⟩]⟩) := rfl

/-- A single user-only chat turn performs exactly the handler's truncating
user append. -/
theorem runAppends_uonly (conv : List Turn) (u : Turn) :
    runAppends conv [.uonly u] = appendUserTurn conv u := rfl

/-- A successful chat turn performs exactly the handler's truncating user
append followed by its plain assistant append. -/
theorem runAppends_upair (conv : List Turn) (u a : Turn) :
    runAppends conv [.upair u a] =
      appendAssistantTurn (appendUserTurn conv u) a := rfl

/-- The user append keeps the history a suffix of all appended turns. -/
theorem appendUserTurn_suffix {conv T : List Turn} (t : Turn)
    (h : List.IsSuffix conv T) :
    List.IsSuffix (appendUserTurn conv t) (T ++ [t]) := by
  obtain ⟨pre, hpre⟩ := h
  have hbase : List.IsSuffix (conv ++ [t]) (T ++ [t]) :=
    ⟨pre, by rw [← List.append_assoc, hpre]⟩
  simp only [appendUserTurn]
  split
  · exact (List.drop_suffix _ _).trans hbase
  · exact hbase

/-- The assistant append keeps the history a suffix of all appended turns. -/
theorem appendAssistantTurn_suffix {conv T : List Turn} (t : Turn)
    (h : List.IsSuffix conv T) :
    List.IsSuffix (appendAssistantTurn conv t) (T ++ [t]) := by
  obtain ⟨pre, hpre⟩ := h
  exact ⟨pre, by rw [appendAssistantTurn, ← List.append_assoc, hpre]⟩

/-- The user append truncates to at most 10: its length is
`min (length + 1) 10`. -/
theorem appendUserTurn_length (conv : List Turn) (t : Turn) :
    (appendUserTurn conv t).length = min (conv.length + 1) 10 := by
  simp only [appendUserTurn]
  split <;> simp_all
  omega

/-- The assistant append grows the history by one, unconditionally. -/
theorem appendAssistantTurn_length (conv : List Turn) (t : Turn) :
    (appendAssistantTurn conv t).length = conv.length + 1 := by
  simp [appendAssistantTurn]

/-- Running appends splits over list concatenation. -/
theorem runAppends_append (conv : List Turn) (s1 s2 : List TurnAppends) :
    runAppends conv (s1 ++ s2) = runAppends (runAppends conv s1) s2 := by
  induction s1 generalizing conv with
  | nil => rfl
  | cons x rest ih => cases x <;> simp [runAppends, ih]

/-- The appended turns split over list concatenation. -/
theorem turnsOf_append (s1 s2 : List TurnAppends) :
    turnsOf (s1 ++ s2) = turnsOf s1 ++ turnsOf s2 := by
  induction s1 with
  | nil => rfl
  | cons x rest ih => cases x <;> simp [turnsOf, ih]

/-- The append count splits over list concatenation. -/
theorem appendCount_append (s1 s2 : List TurnAppends) :
    appendCount (s1 ++ s2) = appendCount s1 + appendCount s2 := by
  induction s1 with
  | nil => simp [appendCount]
  | cons x rest ih => cases x <;> simp [appendCount, ih] <;> omega

/-- Arithmetic of one user append on the stored-length formula. -/
theorem len_step_user (L N : Nat) (E : Bool)
    (hL : L = if N ≤ 10 then N else if E = true then 11 else 10) :
    min (L + 1) 10 = if N + 1 ≤ 10 then N + 1 else 10 := by
  split_ifs at hL ⊢ <;> omega

/-- Arithmetic of one user-plus-assistant pair on the stored-length
formula. -/
theorem len_step_pair (L N : Nat) (E : Bool)
    (hL : L = if N ≤ 10 then N else if E = true then 11 else 10) :
    min (L + 1) 10 + 1 = if N + 2 ≤ 10 then N + 2 else 11 := by
  split_ifs at hL ⊢ <;> omega

/-- The last append of `s ++ [x]` is an assistant turn iff `x` is a pair. -/
theorem endsWithAssistant_concat (s : List TurnAppends) (x : TurnAppends) :
    endsWithAssistant (s ++ [x]) =
      (match x with | .upair _ _ => true | _ => false) := by
  unfold endsWithAssistant
  rw [List.getLast?_concat]
  cases x <;> rfl

/-! ## Claims -/

/-- Claim C1 (amended): over any sequence of chat-turn appends from an
empty history, the stored conversation is a suffix of all appended turns —
the oldest turns are evicted first and the retained turns are the most
recent ones in original order — and its length after N turn-appends is
min(N, 10) while N ≤ 10 or immediately after a user append, but reaches 11
(not 10) when N > 10 and the most recent append was an assistant turn,
because the assistant append is not followed by a truncation. -/
theorem chat_history_bound_amended (steps : List TurnAppends) :
    List.IsSuffix (runAppends [] steps) (turnsOf steps) ∧
    (runAppends [] steps).length =
      (if appendCount steps ≤ 10 then appendCount steps
       else if endsWithAssistant steps then 11 else 10) := by
  induction steps using List.reverseRecOn with
  | nil => exact ⟨⟨[], rfl⟩, by simp [runAppends, appendCount]⟩
  | append_singleton s x ih =>
    obtain ⟨hsuf, hlen⟩ := ih
    rw [runAppends_append, turnsOf_append, appendCount_append,
      endsWithAssistant_concat]
    cases x with
    | uonly u =>
      refine ⟨?_, ?_⟩
      · simpa [runAppends, turnsOf] using appendUserTurn_suffix u hsuf
      · have key := len_step_user (runAppends [] s).length (appendCount s)
          (endsWithAssistant s) hlen
        simpa [runAppends, appendUserTurn_length, appendCount] using key
    | upair u a =>
      refine ⟨?_, ?_⟩
      · simpa [runAppends, turnsOf, List.append_assoc] using
          appendAssistantTurn_suffix a (appendUserTurn_suffix u hsuf)
      · have key := len_step_pair (runAppends [] s).length (appendCount s)
          (endsWithAssistant s) hlen
        simpa [runAppends, appendAssistantTurn_length, appendUserTurn_length,
          appendCount] using key

/-- Claim C1 counterexample: six successful chat requests for the same key
perform 12 turn-appends, yet the stored history then holds 11 turns, not
min(12, 10) = 10 — the ≤ 10 invariant does not hold at all times. -/
theorem chat_history_bound_counterexample :
    (chatIterConvs 6 "P1:LongBot1").length = 11 ∧
    ¬ (chatIterConvs 6 "P1:LongBot1").length = min 12 10 := by
  constructor <;> decide

/-- Claim C5: bot code "3" resolves to "LongBot3" (and each code "1".."8"
to the matching "LongBotN"), an unrecognized non-empty code passes through
unchanged, and an empty code on session creation resolves to "UnknownBot". -/
theorem bot_identity_map_resolution (s : String) (_hne : s ≠ "")
    (hun : BOT_ID_MAP.lookup s = none) (pidQ : Option String) (u : Nat) :
    (∀ p ∈ BOT_ID_MAP, dictGet BOT_ID_MAP p.1 p.1 = p.2) ∧
    dictGet BOT_ID_MAP "3" "3" = "LongBot3" ∧
    dictGet BOT_ID_MAP s s = s ∧
    (new_session pidQ (some "") u).bot_id = "UnknownBot" ∧
    (new_session pidQ none u).bot_id = "UnknownBot" := by
  refine ⟨by decide, by decide, ?_, by simp [new_session], by simp [new_session]⟩
  simp [dictGet, hun]

/-- Witness for C5 at the unmapped non-empty code "zz". -/
theorem bot_identity_map_resolution_witness :
    ("zz" ≠ "" ∧ BOT_ID_MAP.lookup "zz" = none) ∧
    dictGet BOT_ID_MAP "zz" "zz" = "zz" ∧
    (new_session none (some "") 0).bot_id = "UnknownBot" := by
  have h := bot_identity_map_resolution "zz" (by decide) (by decide) none 0
  exact ⟨⟨by decide, by decide⟩, h.2.2.1, h.2.2.2.1⟩

/-- Claim C7: Create Session always returns status 200 with fields
`session_id` (the generated identifier), `prolific_pid` (the query value,
defaulting to the sentinel "NO_PID" when absent) and `bot_id`, and makes
exactly one log call, tagged role "session", whose content is the synthetic
marker containing the session identifier.  There is no error path: the
handler is a total function of its inputs. -/
theorem new_session_contract (pidQ botQ : Option String) (u : Nat) :
    (new_session pidQ botQ u).status = 200 ∧
    (new_session pidQ botQ u).prolific_pid = pidQ.getD "NO_PID" ∧
    (new_session pidQ botQ u).session_id = generate_id u ∧
    (new_session pidQ botQ u).logCalls =
      [⟨pidQ.getD "NO_PID", (new_session pidQ botQ u).bot_id, "session",
        "session_created:" ++ generate_id u⟩] := by
  simp [new_session]

/-- Claim C8: the chat handler takes the participant id from the aliases
`prolific_pid`, `test_pid`, `pid` in that order, first non-empty value
winning, with sentinel "NO_PID" when all are absent or empty. -/
theorem chat_pid_alias_resolution (a b c : Option String)
    (bot msg : Option JVal) :
    resolve_pid ⟨a.map .str, b.map .str, c.map .str, bot, msg⟩ =
      .str (firstNonEmptyPid a b c) := by
  show pyOr (pyGet (a.map .str)) (pyOr (pyGet (b.map .str))
    (pyOr (pyGet (c.map .str)) (.str ((none : Option String).getD "NO_PID")))) = _
  rw [pyOr_step c, pyOr_step b, pyOr_step a]
  rfl

/-- Claim C9: `GET /api/test-log` always reports status "success"; its
error branch is unreachable because `log_to_sheets` never raises. -/
theorem test_log_always_success (env : LogEnv) (ts : String)
    (eff : LogEffects) : (test_log env ts eff).status = "success" := by
  obtain ⟨e1, h1⟩ :=
    log_to_sheets_total env ts "DEBUG_PID" "LongBot1" "user" "Test user message" eff
  obtain ⟨e2, h2⟩ :=
    log_to_sheets_total env ts "DEBUG_PID" "LongBot1" "assistant" "Test assistant reply" e1
  simp [test_log, h1, h2, Except.bind]

/-- Claim C4: the log append never raises: it returns `.ok` on every
environment; with the sheet handle uninitialized it is a silent no-op; a
successful remote append writes nothing to the fallback file; a failed
remote append with a working fallback appends exactly one line, the
comma-joined rendering of the row's fields; and when the fallback also
fails it still returns normally with no effect. -/
theorem log_append_never_raises (env : LogEnv) (ts p b r c : String)
    (eff : LogEffects) :
    ∃ e2, log_to_sheets env ts p b r c eff = .ok e2 ∧
      (env.sheetInit = false → e2 = eff) ∧
      (env.sheetInit = true → env.remoteOk = true →
        e2.fileLines = eff.fileLines) ∧
      (env.sheetInit = true → env.remoteOk = false → env.fileOk = true →
        e2 = { eff with fileLines := eff.fileLines ++
          [commaJoinRow ⟨ts, p, b, "crt-random", r, c⟩] }) ∧
      (env.sheetInit = true → env.remoteOk = false → env.fileOk = false →
        e2 = eff) := by
  rcases env with ⟨si, ro, fo⟩
  cases si <;> cases ro <;> cases fo <;>
    simp [log_to_sheets, sheetAppendRow, fileAppendLine, strOrEmpty_eq]

/-- Witness for C4: remote append fails, fallback succeeds; the fallback
file gains exactly the comma-joined row. -/
theorem log_append_never_raises_witness :
    ∃ e2, log_to_sheets ⟨true, false, true⟩ "T" "P" "B" "user" "hi" ⟨[], []⟩ =
        .ok e2 ∧
      e2 = ⟨[], ["T, P, B, crt-random, user, hi"]⟩ := by
  obtain ⟨e2, hok, _, _, hfb, _⟩ :=
    log_append_never_raises ⟨true, false, true⟩ "T" "P" "B" "user" "hi" ⟨[], []⟩
  refine ⟨e2, hok, ?_⟩
  rw [hfb rfl rfl rfl]
  rfl

/-- Claim C2: when the completion client is unavailable (never initialized,
or the remote call fails), the chat handler still returns HTTP 200 with the
fixed apology string as the reply, makes an assistant log call carrying the
apology, and stores only the user turn: no assistant turn is appended to
the conversation. -/
theorem chat_completion_unavailable (env : ChatEnv) (p : Payload)
    (convs : ConvMap) (m : String) (hm : p.message = some (.str m))
    (hmt : pyStripStr m ≠ "") (hbot : pyTruthy (p.bot.getD (.str "")) = true)
    (hun : env.clientInit = false ∨ env.completionContent = none) :
    chat env p convs = .ok
      ⟨200,
       .ok apologyReply (pyStr (resolve_pid p) ++ ":" ++ chat_bot_id p ++
         ":" ++ toString env.now),
       updateConv convs (chat_conv_key p)
         (appendUserTurn (convs (chat_conv_key p)) ⟨"user", pyStripStr m⟩),
       [⟨pyStr (resolve_pid p), chat_bot_id p, "user", pyStripStr m⟩,
        ⟨pyStr (resolve_pid p), chat_bot_id p, "assistant", apologyReply⟩]⟩ := by
  obtain ⟨f1, f2, f3, botv, msgv⟩ := p
  cases hm
  simp only [chat_run, completionWithFallback_unavailable env hun]
  simp [hmt, hbot]

/-- Witness for C2: client uninitialized; pid "P1", bot "2", message "Hi". -/
theorem chat_completion_unavailable_witness :
    chat ⟨false, none, 77⟩
        ⟨none, none, some (.str "P1"), some (.str "2"), some (.str "Hi")⟩
        emptyConvs =
      .ok ⟨200, .ok apologyReply "P1:LongBot2:77",
        updateConv emptyConvs "P1:LongBot2" [⟨"user", "Hi"⟩],
        [⟨"P1", "LongBot2", "user", "Hi"⟩,
         ⟨"P1", "LongBot2", "assistant", apologyReply⟩]⟩ := by
  rw [chat_completion_unavailable ⟨false, none, 77⟩
    ⟨none, none, some (.str "P1"), some (.str "2"), some (.str "Hi")⟩
    emptyConvs "Hi" rfl (by decide) (by decide) (.inl rfl)]
  rfl

/-- Claim C3: a body whose `message` is absent or a string that is empty
after trimming, or whose `bot` is absent or empty, gets a 400 response
with an error body, no log call, and an unchanged conversation store. -/
theorem chat_invalid_input_no_effects (env : ChatEnv) (p : Payload)
    (convs : ConvMap)
    (h : (p.message = none ∨ (∃ m, p.message = some (.str m) ∧ pyStripStr m = "")) ∨
         ((∃ m, p.message = some (.str m) ∧ pyStripStr m ≠ "") ∧
           pyTruthy (p.bot.getD (.str "")) = false)) :
    ∃ emsg, chat env p convs = .ok ⟨400, .err emsg, convs, []⟩ := by
  obtain ⟨f1, f2, f3, botv, msgv⟩ := p
  rcases h with (hnone | ⟨m, hm, htr⟩) | ⟨⟨m, hm, htr⟩, hbot⟩
  · cases hnone
    exact ⟨missingMessageError, rfl⟩
  · cases hm
    refine ⟨missingMessageError, ?_⟩
    simp only [chat_run]
    simp [htr]
  · cases hm
    refine ⟨missingBotError, ?_⟩
    simp only [chat_run]
    simp [htr, hbot]

/-- Witness for C3: a whitespace-only message with a valid bot code. -/
theorem chat_invalid_input_no_effects_witness :
    ((⟨none, none, none, some (.str "1"), some (.str "   ")⟩ : Payload).message =
        some (.str "   ") ∧ pyStripStr "   " = "") ∧
    ∃ emsg, chat ⟨true, some "ok", 0⟩
        ⟨none, none, none, some (.str "1"), some (.str "   ")⟩ emptyConvs =
      .ok ⟨400, .err emsg, emptyConvs, []⟩ :=
  ⟨⟨rfl, by decide⟩,
    chat_invalid_input_no_effects ⟨true, some "ok", 0⟩ _ emptyConvs
      (.inl (.inr ⟨"   ", rfl, by decide⟩))⟩

/-- Claim C6: every successful chat turn returns 200 with the trimmed
completion text as reply and `session_id` the freshly synthesized composite
`<participant_id>:<resolved bot_id>:<coarse unix timestamp>` — a value
computed from the request alone, not the identifier minted by Create
Session — and makes the user and assistant log calls tagged with the
resolved bot id. -/
theorem chat_success_contract (env : ChatEnv) (p : Payload)
    (convs : ConvMap) (m c : String) (hm : p.message = some (.str m))
    (hmt : pyStripStr m ≠ "") (hbot : pyTruthy (p.bot.getD (.str "")) = true)
    (hcl : env.clientInit = true) (hcc : env.completionContent = some c) :
    chat env p convs = .ok
      ⟨200,
       .ok (pyStripStr c) (pyStr (resolve_pid p) ++ ":" ++ chat_bot_id p ++ ":" ++
         toString env.now),
       updateConv convs (chat_conv_key p)
         (appendAssistantTurn
           (appendUserTurn (convs (chat_conv_key p)) ⟨"user", pyStripStr m⟩)
           ⟨"assistant", pyStripStr c⟩),
       [⟨pyStr (resolve_pid p), chat_bot_id p, "user", pyStripStr m⟩,
        ⟨pyStr (resolve_pid p), chat_bot_id p, "assistant", pyStripStr c⟩]⟩ := by
  obtain ⟨f1, f2, f3, botv, msgv⟩ := p
  cases hm
  simp only [chat_run, completionWithFallback_success env c hcl hcc]
  simp [hmt, hbot]

/-- Witness for C6: the spec's concrete scenario — pid "P1", bot "2",
message "Hi", completion "The answer is probably 47.". -/
theorem chat_success_contract_witness :
    chat ⟨true, some "The answer is probably 47.", 1712000000⟩
        ⟨none, none, some (.str "P1"), some (.str "2"), some (.str "Hi")⟩
        emptyConvs =
      .ok ⟨200, .ok "The answer is probably 47." "P1:LongBot2:1712000000",
        updateConv emptyConvs "P1:LongBot2"
          [⟨"user", "Hi"⟩, ⟨"assistant", "The answer is probably 47."⟩],
        [⟨"P1", "LongBot2", "user", "Hi"⟩,
         ⟨"P1", "LongBot2", "assistant", "The answer is probably 47."⟩]⟩ := by
  rw [chat_success_contract ⟨true, some "The answer is probably 47.", 1712000000⟩
    ⟨none, none, some (.str "P1"), some (.str "2"), some (.str "Hi")⟩
    emptyConvs "Hi" "The answer is probably 47." rfl (by decide) (by decide)
    rfl rfl]
  rfl

/-- Claim C10: a syntactically valid chat body whose `message` field holds
a non-string value makes the handler raise an uncaught AttributeError
(Python `.strip()` on a non-string) instead of returning a 400 response. -/
theorem chat_nonstring_message_raises (env : ChatEnv) (p : Payload)
    (v : JVal) (hm : p.message = some v) (hs : ∀ s, v ≠ JVal.str s)
    (convs : ConvMap) : chat env p convs = .error .attributeError := by
  have hstrip : pyStrip (p.message.getD (.str "")) = .error .attributeError := by
    rw [hm]
    cases v with
    | str s => exact absurd rfl (hs s)
    | int n => rfl
    | bool b => rfl
    | null => rfl
  simp only [chat, hstrip]
  rfl

/-- Witness for C10 at `message = 5` (a JSON number). -/
theorem chat_nonstring_message_raises_witness :
    (⟨none, none, none, some (.str "1"), some (.int 5)⟩ : Payload).message =
      some (.int 5) ∧
    chat ⟨true, some "ok", 0⟩
        ⟨none, none, none, some (.str "1"), some (.int 5)⟩ emptyConvs =
      .error .attributeError :=
  ⟨rfl, chat_nonstring_message_raises ⟨true, some "ok", 0⟩ _ (.int 5) rfl
    (fun _ h => JVal.noConfusion h) emptyConvs⟩

end ChatApp
